import Mathlib

/-!
Shallow embedding of `src/server.js` (lineup-backend): the telemetry ingest
handler with its cooldown-gated WhatsApp alert pipeline, the WhatsApp webhook
command responder (estado / historial), and the sensor administration
endpoints (config upsert, history, delete).

Modeling conventions:
* JS numeric values (temperatures, thresholds, epoch-millisecond instants)
  are modeled as `ℤ`; every operation the handlers perform on them is
  order comparison, subtraction and multiplication, which the embedding
  performs identically.
* JS strings are modeled as `String`; the string operations the server uses
  (`toLowerCase`, `trim`, `startsWith`, `split`, case-insensitive regex
  matching) are implemented structurally over the character list, with the
  ASCII case table (the inputs the server compares are ASCII command words).
* The MongoDB collections are modeled as in-memory lists; `findOne` is
  first-match lookup, `find().sort({timestamp:-1})` is a sort by the
  descending-timestamp relation, `.limit(n)` is `List.take n`.
* Outbound HTTP effects (Evolution API text / image sends) are recorded as a
  list of `OutMsg` values returned by the handler.
-/

namespace Server

/-! ### JS string primitives (ASCII model) -/

/-- ASCII lower-casing of one character, the fragment of JS `toLowerCase`
relevant to the command words the server matches. -/
def asciiLower (c : Char) : Char :=
  if 'A' ≤ c ∧ c ≤ 'Z' then Char.ofNat (c.toNat + 32) else c

/-- JS `String.prototype.toLowerCase` (ASCII model). -/
def jsToLower (s : String) : String :=
  ⟨s.data.map asciiLower⟩

/-- The whitespace characters JS `trim` removes (ASCII model). -/
def jsWhitespace (c : Char) : Bool :=
  decide (c = ' ') || decide (c = '\t') || decide (c = '\n') || decide (c = '\r')

/-- JS `String.prototype.trim`: strip whitespace from both ends. -/
def jsTrim (s : String) : String :=
  ⟨((s.data.dropWhile jsWhitespace).reverse.dropWhile jsWhitespace).reverse⟩

/-- Character-list version of JS `String.prototype.startsWith`. -/
def startsWithChars : List Char → List Char → Bool
  | _, [] => true
  | [], _ :: _ => false
  | a :: as, b :: bs => decide (a = b) && startsWithChars as bs

/-- JS `s.startsWith(p)`. -/
def jsStartsWith (s p : String) : Bool :=
  startsWithChars s.data p.data

/-- Drop the first `n` characters, used to model removing a recognized
leading keyword (`text.replace("historial", "")` removes the first
occurrence, which under the `startsWith` guard is the leading keyword). -/
def jsDrop (s : String) (n : Nat) : String :=
  ⟨s.data.drop n⟩

/-- JS `remoteJid.split("@")[0]`: the characters before the first `@`. -/
def jidNumber (jid : String) : String :=
  ⟨jid.data.takeWhile (fun c => !decide (c = '@'))⟩

/-- Contiguous-sublist test: does `needle` occur inside `hay`? -/
def containsChars (needle : List Char) : List Char → Bool
  | [] => needle.isEmpty
  | c :: rest => startsWithChars (c :: rest) needle || containsChars needle rest

/-- `new RegExp(busqueda, "i").test(friendlyName)` for a pattern without
regex metacharacters: case-insensitive substring match. -/
def regexTestI (pat subject : String) : Bool :=
  containsChars (jsToLower pat).data (jsToLower subject).data

/-! ### Data model -/

/-- A `User` document: `_id`, `username`, optional `whatsapp` contact.
`none` models an absent or empty (JS-falsy) contact. -/
structure User where
  id : Nat
  username : String
  whatsapp : Option String
deriving DecidableEq

/-- A `Sensor` document. `lastAlertSent` is an epoch-millisecond instant or
`null`. -/
structure Sensor where
  hardwareId : String
  friendlyName : String
  alertThreshold : ℤ
  owner : Nat
  enabled : Bool
  lastAlertSent : Option ℤ
deriving DecidableEq

/-- A `Measurement` document; `timestamp` defaults to creation time. -/
structure Measurement where
  sensorId : String
  temperatureC : ℤ
  voltageV : ℤ
  timestamp : ℤ
deriving DecidableEq

/-- The MongoDB state: the three collections. -/
structure DB where
  users : List User
  sensors : List Sensor
  measurements : List Measurement
deriving DecidableEq

/-- `Sensor.findOne({ hardwareId })`: first document with that (exact,
case-sensitive) hardware id. -/
def findSensor (db : DB) (hid : String) : Option Sensor :=
  db.sensors.find? (fun s => decide (s.hardwareId = hid))

/-- `User.findById`, as used by `.populate("owner")`. -/
def findUserById (db : DB) (uid : Nat) : Option User :=
  db.users.find? (fun u => decide (u.id = uid))

/-- `sensor.owner?.whatsapp` after `.populate("owner")`: the owner's contact
if the owner document exists and has a (truthy) contact. -/
def ownerWhatsapp (db : DB) (s : Sensor) : Option String :=
  (findUserById db s.owner).bind (fun u => u.whatsapp)

/-- `User.findOne({ whatsapp: from })`. -/
def findUserByWhatsapp (db : DB) (number : String) : Option User :=
  db.users.find? (fun u => decide (u.whatsapp = some number))

/-! ### Outbound messages -/

/-- An outbound Evolution-API call. An image message records the chart
configuration it carries: the x-axis labels and the temperature series. -/
inductive OutMsg
  | textMsg (number : String) (text : String)
  | imageMsg (number : String) (labels : List String) (temps : List ℤ)
      (caption : String)
deriving DecidableEq

/-- `responderWhatsApp`: performs the `axios.post` inside `try/catch`, so the
dispatch attempt always happens and a send failure (`sendFails = true`) is
swallowed — it never throws into the caller and does not undo the attempt. -/
def responderWhatsApp (sendFails : Bool) (number text : String) : List OutMsg :=
  [OutMsg.textMsg number text]

/-- The formatted alert body built by `sendWhatsAppAlert`. -/
def alertText (sensorName : String) (temp : ℤ) : String :=
  "🚨 *ALERTA DE TEMPERATURA*\n\n" ++
  "📍 *Equipo:* " ++ sensorName ++ "\n" ++
  "🌡️ *Temperatura:* " ++ toString temp ++ "°C\n\n" ++
  "⚠️ _El límite ha sido superado._\n" ++
  "👉 Escribe *Estado* para ver todos tus equipos."

/-! ### Cooldown configuration and check -/

/-- The possible states of `process.env.ALERT_COOLDOWN`: unset, set to the
empty string, set to a numeric string, or set to a non-numeric string. -/
inductive EnvCooldown
  | unset
  | emptyStr
  | numStr (n : ℤ)
  | nonNumStr (s : String)
deriving DecidableEq

/-- `(process.env.ALERT_COOLDOWN || 30) * 60000`. An unset variable and the
empty string are falsy, so `|| 30` substitutes the default; a numeric string
is coerced by `*`; a non-numeric string is truthy, so `|| 30` keeps it and
`*` coerces it to `NaN`, modeled as `none`. -/
def cooldownMs : EnvCooldown → Option ℤ
  | .unset => some (30 * 60000)
  | .emptyStr => some (30 * 60000)
  | .numStr n => some (n * 60000)
  | .nonNumStr _ => none

/-- `!sensor.lastAlertSent || ahora - sensor.lastAlertSent > cooldownMs`.
Any comparison against `NaN` (`cd = none`) is false in JS. -/
def cooldownOk (last : Option ℤ) (now : ℤ) (cd : Option ℤ) : Bool :=
  match last with
  | none => true
  | some l =>
    match cd with
    | none => false
    | some c => decide (now - l > c)

/-! ### POST /api/data (telemetry ingest) -/

/-- `sensor.lastAlertSent = ahora; await sensor.save()`: update the (unique)
matched document — the first list entry with that hardware id. -/
def setLastAlert : List Sensor → String → ℤ → List Sensor
  | [], _, _ => []
  | s :: rest, hid, t =>
    if s.hardwareId = hid then { s with lastAlertSent := some t } :: rest
    else s :: setLastAlert rest hid t

/-- Result of the ingest handler: HTTP status, response body, datastore
state after the request, outbound messages attempted. -/
structure DataResult where
  status : Nat
  body : String
  db : DB
  sent : List OutMsg
deriving DecidableEq

/-- The `POST /api/data` handler. `env` is the cooldown configuration,
`sendFails` tells whether the outbound alert send fails (swallowed by
`responderWhatsApp`), `now` is `new Date()` in epoch milliseconds. -/
def handleData (env : EnvCooldown) (sendFails : Bool) (now : ℤ) (db : DB)
    (sensorId : String) (tempC voltageV : ℤ) : DataResult :=
  match findSensor db sensorId with
  | none => ⟨404, "Sensor no configurado", db, []⟩
  | some sensor =>
    let db1 : DB :=
      { db with measurements := db.measurements ++ [⟨sensorId, tempC, voltageV, now⟩] }
    match ownerWhatsapp db sensor with
    | some phone =>
      if tempC > sensor.alertThreshold then
        if cooldownOk sensor.lastAlertSent now (cooldownMs env) then
          ⟨200, "OK", { db1 with sensors := setLastAlert db1.sensors sensorId now },
            responderWhatsApp sendFails phone (alertText sensor.friendlyName tempC)⟩
        else ⟨200, "OK", db1, []⟩
      else ⟨200, "OK", db1, []⟩
    | none => ⟨200, "OK", db1, []⟩

/-- The `lastAlertSent` of the sensor stored under `hid`, if one exists. -/
def lastAlertOf (db : DB) (hid : String) : Option (Option ℤ) :=
  (findSensor db hid).map (fun s => s.lastAlertSent)

/-- One ingest event: clock reading, request body, send outcome. -/
structure IngestEvent where
  now : ℤ
  sensorId : String
  tempC : ℤ
  voltageV : ℤ
  sendFails : Bool
deriving DecidableEq

/-- Fold a sequence of ingest requests over the datastore. -/
def ingestFold (env : EnvCooldown) : List IngestEvent → DB → DB
  | [], db => db
  | e :: rest, db =>
    ingestFold env rest (handleData env e.sendFails e.now db e.sensorId e.tempC e.voltageV).db

/-! ### Measurement queries (sort by timestamp descending, limit) -/

/-- `Measurement.find({ sensorId })` before sorting. -/
def measurementsFor (db : DB) (hid : String) : List Measurement :=
  db.measurements.filter (fun m => decide (m.sensorId = hid))

/-- The `.sort({ timestamp: -1 })` order: newest first. -/
def byTimestampDesc (a b : Measurement) : Prop :=
  b.timestamp ≤ a.timestamp

instance : DecidableRel byTimestampDesc :=
  fun a b => inferInstanceAs (Decidable (b.timestamp ≤ a.timestamp))

instance : IsTotal Measurement byTimestampDesc :=
  ⟨fun a b => le_total b.timestamp a.timestamp⟩

instance : IsTrans Measurement byTimestampDesc :=
  ⟨fun _ _ _ h1 h2 => le_trans h2 h1⟩

/-- `Measurement.find({ sensorId }).sort({ timestamp: -1 })`. -/
def measurementsDesc (db : DB) (hid : String) : List Measurement :=
  (measurementsFor db hid).insertionSort byTimestampDesc

/-- `findOne({ sensorId }).sort({ timestamp: -1 })`: the newest measurement. -/
def latestMeasurement (db : DB) (hid : String) : Option Measurement :=
  (measurementsDesc db hid).head?

/-- The measurements the historial chart is built over: newest 10, fetched
descending and then (label/data arrays) reversed into chronological order. -/
def chartDocs (db : DB) (hid : String) : List Measurement :=
  ((measurementsDesc db hid).take 10).reverse

/-! ### POST /api/webhook/whatsapp (command responder) -/

/-- The webhook envelope's `data` object: the message text (already the
`conversation || extendedTextMessage?.text` collapse; `none` when the
envelope has no message) and `key.remoteJid`. -/
structure WebhookData where
  message : Option String
  remoteJid : String
deriving DecidableEq

/-- Webhook handler result: HTTP status and outbound messages sent. -/
structure WebhookResult where
  status : Nat
  sent : List OutMsg
deriving DecidableEq

/-- `Sensor.find({ owner: user._id, enabled: true })`. -/
def sensorsOf (db : DB) (user : User) : List Sensor :=
  db.sensors.filter (fun s => decide (s.owner = user.id) && s.enabled)

/-- `new Date(m.timestamp).toLocaleTimeString()`: the x-axis label rendered
for one measurement (opaque rendering of the instant). -/
def timeLabel (t : ℤ) : String :=
  toString t

/-- One line of the estado report for sensor `s`. -/
def estadoLine (db : DB) (s : Sensor) : String :=
  let lastM := latestMeasurement db s.hardwareId
  let temp :=
    match lastM with
    | some m => toString m.temperatureC ++ "°C"
    | none => "N/A"
  let icon :=
    match lastM with
    | some m => if m.temperatureC > s.alertThreshold then "🔴" else "🟢"
    | none => "🟢"
  icon ++ " *" ++ s.friendlyName ++ "*: " ++ temp ++ "\n"

/-- The fixed report header. -/
def reportHeader : String :=
  "📋 *REPORTE DE EQUIPOS*\n\n"

/-- The estado report: header, then one line per enabled owned sensor. -/
def estadoReport (db : DB) (user : User) : String :=
  (sensorsOf db user).foldl (fun acc s => acc ++ estadoLine db s) reportHeader

/-- `Sensor.findOne({ owner, friendlyName: { $regex: new RegExp(busqueda, "i") } })`. -/
def findSensorByName (db : DB) (user : User) (busqueda : String) : Option Sensor :=
  db.sensors.find? (fun s => decide (s.owner = user.id) && regexTestI busqueda s.friendlyName)

/-- The not-found reply of the historial branch. -/
def notFoundText (busqueda : String) : String :=
  "❌ No encontré el equipo \"" ++ busqueda ++ "\""

/-- The historial branch, entered when `text` starts with `"historial"`.
`busqueda` is `text.replace("historial", "").trim()`; the replace removes the
first occurrence, which under the guard is the 9-character leading keyword. -/
def historialMsgs (db : DB) (user : User) (fromN text : String) : List OutMsg :=
  let busqueda := jsTrim (jsDrop text 9)
  match findSensorByName db user busqueda with
  | some sensor =>
    let docs := (measurementsDesc db sensor.hardwareId).take 10
    if docs.length > 0 then
      [OutMsg.imageMsg fromN
        ((docs.map (fun m => timeLabel m.timestamp)).reverse)
        ((docs.map (fun m => m.temperatureC)).reverse)
        ("📊 Historial: " ++ sensor.friendlyName)]
    else []
  | none => [OutMsg.textMsg fromN (notFoundText busqueda)]

/-- The command dispatch once the sender is known: the estado block runs,
then the historial block, each guarded; their sends happen in that order. -/
def handleCommand (db : DB) (fromN text : String) : WebhookResult :=
  match findUserByWhatsapp db fromN with
  | none => ⟨200, []⟩
  | some user =>
    ⟨200,
      (if text = "estado" then [OutMsg.textMsg fromN (estadoReport db user)] else []) ++
      (if jsStartsWith text "historial" then historialMsgs db user fromN text else [])⟩

/-- The handler body once the envelope has a `data` object. -/
def handleWebhookData (db : DB) (data : WebhookData) : WebhookResult :=
  match data.message with
  | none => ⟨200, []⟩
  | some raw => handleCommand db (jidNumber data.remoteJid) (jsTrim (jsToLower raw))

/-- The `POST /api/webhook/whatsapp` handler. `body = none` models an
envelope without a `data` object: `data.message` then throws a `TypeError`,
which the surrounding `try/catch` turns into `res.sendStatus(500)`. -/
def handleWebhook (db : DB) (body : Option WebhookData) : WebhookResult :=
  match body with
  | none => ⟨500, []⟩
  | some data => handleWebhookData db data

/-! ### Authenticated sensor administration -/

/-- `Sensor.deleteOne({ hardwareId, owner })`: remove the first document
matching both. -/
def deleteOneSensor : List Sensor → String → Nat → List Sensor
  | [], _, _ => []
  | s :: rest, hid, uid =>
    if s.hardwareId = hid ∧ s.owner = uid then rest
    else s :: deleteOneSensor rest hid uid

/-- The `DELETE /api/sensors/:hardwareId` handler: `deleteOne` scoped to the
caller, then `Measurement.deleteMany({ sensorId })` — unconditionally. -/
def handleDelete (db : DB) (callerId : Nat) (hid : String) : Nat × DB :=
  (200,
    { db with
      sensors := deleteOneSensor db.sensors hid callerId
      measurements := db.measurements.filter (fun m => !decide (m.sensorId = hid)) })

/-- Result of the history endpoint: status and, on success, the rows. -/
structure HistoryResult where
  status : Nat
  rows : Option (List Measurement)
deriving DecidableEq

/-- The `GET /api/history` handler: ownership check, then newest-first rows
limited by `limit` (default 100 supplied by the route). -/
def handleHistory (db : DB) (callerId : Nat) (sensorId : String) (limit : Nat) :
    HistoryResult :=
  match db.sensors.find? (fun s => decide (s.hardwareId = sensorId) && decide (s.owner = callerId)) with
  | none => ⟨403, none⟩
  | some _ => ⟨200, some ((measurementsDesc db sensorId).take limit)⟩

/-- The config upsert request body (`req.body`). -/
structure ConfigBody where
  hardwareId : String
  friendlyName : String
  alertThreshold : ℤ
deriving DecidableEq

/-- `Sensor.findOneAndUpdate({ hardwareId }, { ...body, owner, enabled: true },
{ upsert: true })`: update the first document with that hardware id, setting
the body fields plus the forced owner and enabled flag (fields not in the
update document, here `lastAlertSent`, are preserved); insert when absent. -/
def upsertSensor : List Sensor → ConfigBody → Nat → List Sensor
  | [], b, uid =>
    [⟨b.hardwareId, b.friendlyName, b.alertThreshold, uid, true, none⟩]
  | s :: rest, b, uid =>
    if s.hardwareId = b.hardwareId then
      ⟨b.hardwareId, b.friendlyName, b.alertThreshold, uid, true, s.lastAlertSent⟩ :: rest
    else s :: upsertSensor rest b uid

/-- The `POST /api/sensors/config` handler. -/
def handleConfig (db : DB) (callerId : Nat) (body : ConfigBody) : Nat × DB :=
  (200, { db with sensors := upsertSensor db.sensors body callerId })

/-! ## Branch lemmas for the ingest handler -/

lemma handleData_notfound (env : EnvCooldown) (sf : Bool) (now : ℤ) (db : DB)
    (sid : String) (tempC voltageV : ℤ)
    (h : findSensor db sid = none) :
    handleData env sf now db sid tempC voltageV = ⟨404, "Sensor no configurado", db, []⟩ := by
  unfold handleData
  rw [h]

lemma handleData_alert (env : EnvCooldown) (sf : Bool) (now : ℤ) (db : DB)
    (sid : String) (tempC voltageV : ℤ) (sensor : Sensor) (phone : String)
    (hs : findSensor db sid = some sensor)
    (hw : ownerWhatsapp db sensor = some phone)
    (ht : tempC > sensor.alertThreshold)
    (hc : cooldownOk sensor.lastAlertSent now (cooldownMs env) = true) :
    handleData env sf now db sid tempC voltageV =
      ⟨200, "OK",
        ⟨db.users, setLastAlert db.sensors sid now,
          db.measurements ++ [⟨sid, tempC, voltageV, now⟩]⟩,
        [OutMsg.textMsg phone (alertText sensor.friendlyName tempC)]⟩ := by
  unfold handleData
  simp only [hs, hw, if_pos ht, if_pos hc]
  rfl

lemma handleData_skipNoPhone (env : EnvCooldown) (sf : Bool) (now : ℤ) (db : DB)
    (sid : String) (tempC voltageV : ℤ) (sensor : Sensor)
    (hs : findSensor db sid = some sensor)
    (hw : ownerWhatsapp db sensor = none) :
    handleData env sf now db sid tempC voltageV =
      ⟨200, "OK",
        ⟨db.users, db.sensors, db.measurements ++ [⟨sid, tempC, voltageV, now⟩]⟩, []⟩ := by
  unfold handleData
  simp only [hs, hw]

lemma handleData_skipTemp (env : EnvCooldown) (sf : Bool) (now : ℤ) (db : DB)
    (sid : String) (tempC voltageV : ℤ) (sensor : Sensor) (phone : String)
    (hs : findSensor db sid = some sensor)
    (hw : ownerWhatsapp db sensor = some phone)
    (ht : ¬ tempC > sensor.alertThreshold) :
    handleData env sf now db sid tempC voltageV =
      ⟨200, "OK",
        ⟨db.users, db.sensors, db.measurements ++ [⟨sid, tempC, voltageV, now⟩]⟩, []⟩ := by
  unfold handleData
  simp only [hs, hw, if_neg ht]

lemma handleData_skipCooldown (env : EnvCooldown) (sf : Bool) (now : ℤ) (db : DB)
    (sid : String) (tempC voltageV : ℤ) (sensor : Sensor) (phone : String)
    (hs : findSensor db sid = some sensor)
    (hw : ownerWhatsapp db sensor = some phone)
    (ht : tempC > sensor.alertThreshold)
    (hc : ¬ cooldownOk sensor.lastAlertSent now (cooldownMs env) = true) :
    handleData env sf now db sid tempC voltageV =
      ⟨200, "OK",
        ⟨db.users, db.sensors, db.measurements ++ [⟨sid, tempC, voltageV, now⟩]⟩, []⟩ := by
  unfold handleData
  simp only [hs, hw, if_pos ht, if_neg hc]

lemma cooldownOk_some_iff (last : Option ℤ) (now c : ℤ) :
    cooldownOk last now (some c) = true ↔
      (last = none ∨ ∃ l, last = some l ∧ now - l > c) := by
  cases last <;> simp [cooldownOk]

lemma cooldownOk_none_iff (last : Option ℤ) (now : ℤ) :
    cooldownOk last now none = true ↔ last = none := by
  cases last <;> simp [cooldownOk]

/-- The ingest handler attempts an alert dispatch exactly when the
temperature is over threshold and the cooldown check passes. -/
lemma alert_fires_iff (env : EnvCooldown) (sf : Bool) (now : ℤ) (db : DB)
    (sid : String) (tempC voltageV : ℤ) (sensor : Sensor) (phone : String)
    (hs : findSensor db sid = some sensor)
    (hw : ownerWhatsapp db sensor = some phone) :
    (handleData env sf now db sid tempC voltageV).sent ≠ [] ↔
      (tempC > sensor.alertThreshold ∧
        cooldownOk sensor.lastAlertSent now (cooldownMs env) = true) := by
  by_cases ht : tempC > sensor.alertThreshold
  · by_cases hc : cooldownOk sensor.lastAlertSent now (cooldownMs env) = true
    · rw [handleData_alert env sf now db sid tempC voltageV sensor phone hs hw ht hc]
      simp [ht, hc]
    · rw [handleData_skipCooldown env sf now db sid tempC voltageV sensor phone hs hw ht hc]
      simp [hc]
  · rw [handleData_skipTemp env sf now db sid tempC voltageV sensor phone hs hw ht]
    simp [ht]

lemma handleData_status_found (env : EnvCooldown) (sf : Bool) (now : ℤ) (db : DB)
    (sid : String) (tempC voltageV : ℤ) (sensor : Sensor)
    (hs : findSensor db sid = some sensor) :
    (handleData env sf now db sid tempC voltageV).status = 200 := by
  cases hw : ownerWhatsapp db sensor with
  | none => rw [handleData_skipNoPhone env sf now db sid tempC voltageV sensor hs hw]
  | some phone =>
    by_cases ht : tempC > sensor.alertThreshold
    · by_cases hc : cooldownOk sensor.lastAlertSent now (cooldownMs env) = true
      · rw [handleData_alert env sf now db sid tempC voltageV sensor phone hs hw ht hc]
      · rw [handleData_skipCooldown env sf now db sid tempC voltageV sensor phone hs hw ht hc]
    · rw [handleData_skipTemp env sf now db sid tempC voltageV sensor phone hs hw ht]

/-! ## find? lemmas for sensor updates -/

lemma find?_setLastAlert_self (l : List Sensor) (hid : String) (t : ℤ) (s : Sensor)
    (h : l.find? (fun x => decide (x.hardwareId = hid)) = some s) :
    (setLastAlert l hid t).find? (fun x => decide (x.hardwareId = hid))
      = some { s with lastAlertSent := some t } := by
  induction l with
  | nil => exact Option.noConfusion h
  | cons a rest ih =>
    by_cases ha : a.hardwareId = hid
    · rw [List.find?_cons_of_pos _ (by simp [ha])] at h
      injection h with h
      subst h
      unfold setLastAlert
      rw [if_pos ha]
      exact List.find?_cons_of_pos _ (by simp [ha])
    · rw [List.find?_cons_of_neg _ (by simp [ha])] at h
      unfold setLastAlert
      rw [if_neg ha, List.find?_cons_of_neg _ (by simp [ha])]
      exact ih h

lemma find?_setLastAlert_other (l : List Sensor) (hid hid2 : String) (t : ℤ)
    (hne : hid2 ≠ hid) :
    (setLastAlert l hid t).find? (fun x => decide (x.hardwareId = hid2))
      = l.find? (fun x => decide (x.hardwareId = hid2)) := by
  induction l with
  | nil => rfl
  | cons a rest ih =>
    unfold setLastAlert
    by_cases ha : a.hardwareId = hid
    · rw [if_pos ha]
      have h2 : ¬ a.hardwareId = hid2 := by
        rw [ha]
        exact fun hh => hne hh.symm
      rw [List.find?_cons_of_neg _ (by simp [h2]), List.find?_cons_of_neg _ (by simp [h2])]
    · rw [if_neg ha]
      by_cases h2 : a.hardwareId = hid2
      · rw [List.find?_cons_of_pos _ (by simp [h2]), List.find?_cons_of_pos _ (by simp [h2])]
      · rw [List.find?_cons_of_neg _ (by simp [h2]), List.find?_cons_of_neg _ (by simp [h2])]
        exact ih

/-! ## Concrete fixtures used by witnesses and counterexamples -/

/-- A user owning the test sensor, with a WhatsApp contact. -/
def wAlice : User := ⟨1, "alice", some "5491111"⟩

/-- A second user, owning no sensor. -/
def wBob : User := ⟨2, "bob", some "5492222"⟩

/-- Test sensor: threshold 5 °C, owned by Alice, last alert at epoch 0 ms. -/
def wSensor : Sensor := ⟨"HELADERA-01", "Freezer Grande", 5, 1, true, some 0⟩

/-- One stored measurement for the test sensor. -/
def wMeas : Measurement := ⟨"HELADERA-01", 3, 12, 1000⟩

/-- The fixture datastore. -/
def wDB : DB := ⟨[wAlice, wBob], [wSensor], [wMeas]⟩

/-! ## C1 -/

/-- C1: for an ingest of a reading for a configured sensor whose owner has a
contact identifier, the alert decision (an alert dispatch happens) is true iff
the reported temperature is strictly greater than the sensor's threshold AND
(`lastAlertSent` is null OR `now - lastAlertSent` is strictly greater than the
cooldown window); both comparisons strict. -/
theorem alert_decision_iff (env : EnvCooldown) (sf : Bool) (now w : ℤ) (db : DB)
    (sid : String) (tempC voltageV : ℤ) (sensor : Sensor) (phone : String)
    (hs : findSensor db sid = some sensor)
    (hw : ownerWhatsapp db sensor = some phone)
    (hcd : cooldownMs env = some w) :
    (handleData env sf now db sid tempC voltageV).sent ≠ [] ↔
      (tempC > sensor.alertThreshold ∧
        (sensor.lastAlertSent = none ∨
          ∃ l, sensor.lastAlertSent = some l ∧ now - l > w)) := by
  rw [alert_fires_iff env sf now db sid tempC voltageV sensor phone hs hw, hcd,
    cooldownOk_some_iff]

/-- Witness for C1 at a concrete input: default cooldown, last alert 31
minutes ago, reported temperature 10 over threshold 5 — the dispatch happens
and the decision formula holds. -/
theorem alert_decision_iff_witness :
    findSensor wDB "HELADERA-01" = some wSensor ∧
    ownerWhatsapp wDB wSensor = some "5491111" ∧
    cooldownMs .unset = some 1800000 ∧
    ((handleData .unset false 1860000 wDB "HELADERA-01" 10 12).sent ≠ [] ↔
      ((10 : ℤ) > wSensor.alertThreshold ∧
        (wSensor.lastAlertSent = none ∨
          ∃ l, wSensor.lastAlertSent = some l ∧ 1860000 - l > 1800000))) :=
  ⟨by decide, by decide, by decide,
    alert_decision_iff .unset false 1860000 1800000 wDB "HELADERA-01" 10 12 wSensor
      "5491111" (by decide) (by decide) (by decide)⟩

/-! ## C2 -/

/-- C2 counterexample: under the non-numeric configuration `"abc"`, the same
reading that fires under the default 30-minute window (temperature 10 > 5,
`lastAlertSent` 31 minutes old) does NOT fire: `(\"abc\" || 30) * 60000` is
`NaN`, every `NaN` comparison is false, so the pipeline does not behave as if
the window were the default. -/
theorem nonNumeric_cooldown_counterexample :
    (handleData (.nonNumStr "abc") false 1860000 wDB "HELADERA-01" 10 12).sent = [] ∧
    (handleData .unset false 1860000 wDB "HELADERA-01" 10 12).sent ≠ [] := by
  decide

/-- C2 amended: when the cooldown configuration is non-numeric, ingestion
does not crash (the request still completes with status 200), but the window
is effectively infinite rather than the default: the alert fires iff the
temperature exceeds the threshold and `lastAlertSent` is null — a previous
alert more than 30 minutes old never fires again. -/
theorem nonNumeric_cooldown_behavior (s : String) (sf : Bool) (now : ℤ) (db : DB)
    (sid : String) (tempC voltageV : ℤ) (sensor : Sensor) (phone : String)
    (hs : findSensor db sid = some sensor)
    (hw : ownerWhatsapp db sensor = some phone) :
    (handleData (.nonNumStr s) sf now db sid tempC voltageV).status = 200 ∧
    ((handleData (.nonNumStr s) sf now db sid tempC voltageV).sent ≠ [] ↔
      (tempC > sensor.alertThreshold ∧ sensor.lastAlertSent = none)) := by
  refine ⟨handleData_status_found _ sf now db sid tempC voltageV sensor hs, ?_⟩
  rw [alert_fires_iff _ sf now db sid tempC voltageV sensor phone hs hw]
  have hcd : cooldownMs (.nonNumStr s) = none := rfl
  rw [hcd, cooldownOk_none_iff]

/-- Witness for C2 (amended) at a concrete input: suppressed re-alert. -/
theorem nonNumeric_cooldown_behavior_witness :
    findSensor wDB "HELADERA-01" = some wSensor ∧
    ownerWhatsapp wDB wSensor = some "5491111" ∧
    ((handleData (.nonNumStr "abc") false 1860000 wDB "HELADERA-01" 10 12).status = 200 ∧
      ((handleData (.nonNumStr "abc") false 1860000 wDB "HELADERA-01" 10 12).sent ≠ [] ↔
        ((10 : ℤ) > wSensor.alertThreshold ∧ wSensor.lastAlertSent = none))) :=
  ⟨by decide, by decide,
    nonNumeric_cooldown_behavior "abc" false 1860000 wDB "HELADERA-01" 10 12 wSensor
      "5491111" (by decide) (by decide)⟩

/-! ## C3 -/

/-- C3: ingest with a known sensor, temperature strictly above threshold,
cooldown passed, owner with a contact: exactly one alert notification is
dispatched and the sensor's `lastAlertSent` becomes the ingest time. The
statement holds for every value of `sf` (whether the outbound send fails):
the send runs inside `try/catch`, so a failure does not prevent the
`sensor.save()` that follows — dispatch and timestamp update are not
transactional. -/
theorem ingest_alert_dispatch (env : EnvCooldown) (sf : Bool) (now : ℤ) (db : DB)
    (sid : String) (tempC voltageV : ℤ) (sensor : Sensor) (phone : String)
    (hs : findSensor db sid = some sensor)
    (hw : ownerWhatsapp db sensor = some phone)
    (ht : tempC > sensor.alertThreshold)
    (hc : cooldownOk sensor.lastAlertSent now (cooldownMs env) = true) :
    (handleData env sf now db sid tempC voltageV).sent
      = [OutMsg.textMsg phone (alertText sensor.friendlyName tempC)] ∧
    lastAlertOf (handleData env sf now db sid tempC voltageV).db sid = some (some now) := by
  rw [handleData_alert env sf now db sid tempC voltageV sensor phone hs hw ht hc]
  refine ⟨rfl, ?_⟩
  unfold lastAlertOf findSensor
  rw [find?_setLastAlert_self db.sensors sid now sensor hs]
  rfl

/-- Witness for C3 at a concrete input, with a failing send (`sf = true`):
the dispatch attempt and the timestamp update both happen. -/
theorem ingest_alert_dispatch_witness :
    findSensor wDB "HELADERA-01" = some wSensor ∧
    ownerWhatsapp wDB wSensor = some "5491111" ∧
    ((10 : ℤ) > wSensor.alertThreshold) ∧
    cooldownOk wSensor.lastAlertSent 1860000 (cooldownMs .unset) = true ∧
    ((handleData .unset true 1860000 wDB "HELADERA-01" 10 12).sent
      = [OutMsg.textMsg "5491111" (alertText wSensor.friendlyName 10)] ∧
    lastAlertOf (handleData .unset true 1860000 wDB "HELADERA-01" 10 12).db "HELADERA-01"
      = some (some 1860000)) :=
  ⟨by decide, by decide, by decide, by decide,
    ingest_alert_dispatch .unset true 1860000 wDB "HELADERA-01" 10 12 wSensor
      "5491111" (by decide) (by decide) (by decide) (by decide)⟩

/-! ## C4 -/

lemma lastAlert_step (env : EnvCooldown)
    (hcd : ∀ c, cooldownMs env = some c → 0 ≤ c)
    (e : IngestEvent) (db : DB) (hid : String) (l : ℤ)
    (h : lastAlertOf db hid = some (some l)) :
    ∃ l2, lastAlertOf (handleData env e.sendFails e.now db e.sensorId e.tempC e.voltageV).db hid
        = some (some l2) ∧ l ≤ l2 := by
  cases hfind : findSensor db e.sensorId with
  | none =>
    rw [handleData_notfound env e.sendFails e.now db e.sensorId e.tempC e.voltageV hfind]
    exact ⟨l, h, le_refl l⟩
  | some sensor =>
    cases hw : ownerWhatsapp db sensor with
    | none =>
      rw [handleData_skipNoPhone env e.sendFails e.now db e.sensorId e.tempC e.voltageV
        sensor hfind hw]
      exact ⟨l, h, le_refl l⟩
    | some phone =>
      by_cases ht : e.tempC > sensor.alertThreshold
      · by_cases hc : cooldownOk sensor.lastAlertSent e.now (cooldownMs env) = true
        · rw [handleData_alert env e.sendFails e.now db e.sensorId e.tempC e.voltageV
            sensor phone hfind hw ht hc]
          by_cases heq : hid = e.sensorId
          · subst heq
            unfold lastAlertOf at h
            rw [hfind] at h
            simp only [Option.map_some'] at h
            have hlast : sensor.lastAlertSent = some l := Option.some_injective _ h
            rw [hlast] at hc
            cases hm : cooldownMs env with
            | none => rw [hm] at hc; exact absurd hc (by simp [cooldownOk])
            | some c =>
              rw [hm] at hc
              have hgt : e.now - l > c := by
                have := hc
                unfold cooldownOk at this
                exact of_decide_eq_true this
              have hle : l ≤ e.now := by
                have := hcd c hm
                omega
              refine ⟨e.now, ?_, hle⟩
              unfold lastAlertOf findSensor
              rw [find?_setLastAlert_self db.sensors e.sensorId e.now sensor hfind]
              rfl
          · refine ⟨l, ?_, le_refl l⟩
            unfold lastAlertOf findSensor
            rw [find?_setLastAlert_other db.sensors e.sensorId hid e.now heq]
            exact h
        · rw [handleData_skipCooldown env e.sendFails e.now db e.sensorId e.tempC e.voltageV
            sensor phone hfind hw ht hc]
          exact ⟨l, h, le_refl l⟩
      · rw [handleData_skipTemp env e.sendFails e.now db e.sensorId e.tempC e.voltageV
          sensor phone hfind hw ht]
        exact ⟨l, h, le_refl l⟩

/-- C4: along any sequence of ingest operations, once a sensor's
`lastAlertSent` is a non-null instant, it never decreases: the alert path
only overwrites it with an instant strictly later than `lastAlertSent +
cooldown`, given a non-negative cooldown window (a non-numeric window never
overwrites a non-null value at all). -/
theorem lastAlertSent_monotone (env : EnvCooldown)
    (hcd : ∀ c, cooldownMs env = some c → 0 ≤ c)
    (events : List IngestEvent) (db : DB) (hid : String) (l : ℤ)
    (h : lastAlertOf db hid = some (some l)) :
    ∃ l2, lastAlertOf (ingestFold env events db) hid = some (some l2) ∧ l ≤ l2 := by
  induction events generalizing db l with
  | nil => exact ⟨l, h, le_refl l⟩
  | cons e rest ih =>
    obtain ⟨l1, h1, hl1⟩ := lastAlert_step env hcd e db hid l h
    obtain ⟨l2, h2, hl2⟩ := ih _ _ h1
    exact ⟨l2, h2, le_trans hl1 hl2⟩

/-- Witness for C4: two ingest events, the first of which fires and bumps
`lastAlertSent` from 0 to a later instant. -/
theorem lastAlertSent_monotone_witness :
    (∀ c, cooldownMs .unset = some c → 0 ≤ c) ∧
    lastAlertOf wDB "HELADERA-01" = some (some 0) ∧
    ∃ l2, lastAlertOf
        (ingestFold .unset
          [⟨1860000, "HELADERA-01", 10, 12, false⟩, ⟨1860001, "HELADERA-01", 10, 12, false⟩] wDB)
        "HELADERA-01" = some (some l2) ∧ (0 : ℤ) ≤ l2 :=
  ⟨fun c hc => by simp [cooldownMs] at hc; omega, by decide,
    lastAlertSent_monotone .unset (fun c hc => by simp [cooldownMs] at hc; omega)
      [⟨1860000, "HELADERA-01", 10, 12, false⟩, ⟨1860001, "HELADERA-01", 10, 12, false⟩]
      wDB "HELADERA-01" 0 (by decide)⟩

/-! ## C8 -/

/-- C8: an ingest whose sensorId matches no configured sensor (exact,
case-sensitive `hardwareId` lookup) creates no Measurement, leaves the
datastore untouched (the reading is discarded, nothing queued), dispatches
nothing, and is rejected 404 with the sensor-not-configured error body. -/
theorem unknown_sensor_rejected (env : EnvCooldown) (sf : Bool) (now : ℤ) (db : DB)
    (sid : String) (tempC voltageV : ℤ)
    (h : findSensor db sid = none) :
    (handleData env sf now db sid tempC voltageV).status = 404 ∧
    (handleData env sf now db sid tempC voltageV).body = "Sensor no configurado" ∧
    (handleData env sf now db sid tempC voltageV).db = db ∧
    (handleData env sf now db sid tempC voltageV).sent = [] := by
  rw [handleData_notfound env sf now db sid tempC voltageV h]
  exact ⟨rfl, rfl, rfl, rfl⟩

/-- Witness for C8: `"heladera-01"` differs from `"HELADERA-01"` only by
case and is rejected — the lookup is case-sensitive. -/
theorem unknown_sensor_rejected_witness :
    findSensor wDB "heladera-01" = none ∧
    ((handleData .unset false 1860000 wDB "heladera-01" 10 12).status = 404 ∧
      (handleData .unset false 1860000 wDB "heladera-01" 10 12).body = "Sensor no configurado" ∧
      (handleData .unset false 1860000 wDB "heladera-01" 10 12).db = wDB ∧
      (handleData .unset false 1860000 wDB "heladera-01" 10 12).sent = []) :=
  ⟨by decide,
    unknown_sensor_rejected .unset false 1860000 wDB "heladera-01" 10 12 (by decide)⟩

/-! ## Webhook branch lemmas -/

lemma estado_not_historial : jsStartsWith "estado" "historial" = false := by decide

lemma handleCommand_estado (db : DB) (fromN : String) (user : User)
    (hu : findUserByWhatsapp db fromN = some user) :
    handleCommand db fromN "estado"
      = ⟨200, [OutMsg.textMsg fromN (estadoReport db user)]⟩ := by
  unfold handleCommand
  rw [hu]
  simp [estado_not_historial]

lemma handleCommand_historial (db : DB) (fromN text : String) (user : User)
    (hu : findUserByWhatsapp db fromN = some user)
    (hstart : jsStartsWith text "historial" = true)
    (hne : ¬ text = "estado") :
    handleCommand db fromN text = ⟨200, historialMsgs db user fromN text⟩ := by
  unfold handleCommand
  rw [hu]
  simp [hne, hstart]

/-! ## Sortedness of the historial chart data -/

lemma measurementsDesc_sorted (db : DB) (hid : String) :
    (measurementsDesc db hid).Sorted byTimestampDesc :=
  List.sorted_insertionSort byTimestampDesc (measurementsFor db hid)

lemma chartDocs_sorted_le (db : DB) (hid : String) :
    ((chartDocs db hid).map (fun m => m.timestamp)).Sorted (· ≤ ·) := by
  have h2 : ((measurementsDesc db hid).take 10).Pairwise byTimestampDesc :=
    List.Pairwise.sublist (List.take_sublist 10 _) (measurementsDesc_sorted db hid)
  unfold chartDocs
  rw [List.Sorted, List.pairwise_map, List.pairwise_reverse]
  exact h2.imp (fun hab => hab)

lemma chartDocs_sorted_lt (db : DB) (hid : String)
    (hnd : (db.measurements.map (fun m => m.timestamp)).Pairwise (· ≠ ·)) :
    ((chartDocs db hid).map (fun m => m.timestamp)).Sorted (· < ·) := by
  have hle := chartDocs_sorted_le db hid
  have h0 : db.measurements.Pairwise (fun a b => a.timestamp ≠ b.timestamp) :=
    (List.pairwise_map).mp hnd
  have h1 : (measurementsFor db hid).Pairwise (fun a b => a.timestamp ≠ b.timestamp) :=
    List.Pairwise.sublist (List.filter_sublist _) h0
  have hS : ∀ {x y : Measurement},
      x.timestamp ≠ y.timestamp → y.timestamp ≠ x.timestamp :=
    fun hab hh => hab hh.symm
  have h2 : (measurementsDesc db hid).Pairwise (fun a b => a.timestamp ≠ b.timestamp) :=
    ((List.perm_insertionSort byTimestampDesc (measurementsFor db hid)).pairwise_iff
      hS).mpr h1
  have h3 : ((measurementsDesc db hid).take 10).Pairwise
      (fun a b => a.timestamp ≠ b.timestamp) :=
    List.Pairwise.sublist (List.take_sublist 10 _) h2
  have h4 : ((chartDocs db hid).map (fun m => m.timestamp)).Pairwise (· ≠ ·) := by
    unfold chartDocs
    rw [List.pairwise_map, List.pairwise_reverse]
    exact h3.imp (fun hab hh => hab hh.symm)
  exact (hle.and h4).imp (fun hab => lt_of_le_of_ne hab.1 hab.2)

lemma take_docs_eq_nil_iff (db : DB) (hid : String) :
    (measurementsDesc db hid).take 10 = [] ↔ measurementsFor db hid = [] := by
  rw [List.take_eq_nil_iff]
  constructor
  · rintro (h | h)
    · exact absurd h (by decide)
    · have hp : List.Perm (measurementsDesc db hid) (measurementsFor db hid) :=
        List.perm_insertionSort byTimestampDesc (measurementsFor db hid)
      rw [h] at hp
      exact hp.symm.eq_nil
  · intro h
    right
    unfold measurementsDesc
    rw [h]
    rfl

/-! ## C5 -/

/-- C5 counterexample: a webhook request whose envelope lacks a `data`
object makes the handler throw (`data.message` on `undefined`), and the
catch block answers 500 — an error status, not a generic acknowledgement. -/
theorem webhook_internal_failure_counterexample :
    (handleWebhook wDB none).status = 500 ∧ (handleWebhook wDB none).status ≠ 200 := by
  decide

/-- C5 amended: every envelope carrying a `data` object is acknowledged 200
regardless of internal outcome (no message, unknown sender, unrecognized
command, recognized commands), but an envelope that makes the handler throw
(no `data` object) is answered 500 by the catch block — an error status that
can trigger platform-side retries. -/
theorem webhook_status_characterization (db : DB) (body : Option WebhookData) :
    (handleWebhook db body).status
      = (match body with | some _ => 200 | none => 500) := by
  cases body with
  | none => rfl
  | some data =>
    show (handleWebhookData db data).status = 200
    unfold handleWebhookData
    cases hm : data.message with
    | none => rfl
    | some raw =>
      unfold handleCommand
      cases hu : findUserByWhatsapp db (jidNumber data.remoteJid) with
      | none => rfl
      | some user => rfl

/-! ## C6 -/

/-- C6: evaluation at the failing input. First half: user 2, who does not
own the sensor, calls DELETE — the sensor document survives (`deleteOne`
matched nothing) yet every measurement for that hardwareId is destroyed,
because `deleteMany` runs unconditionally. Second half: the owned case works
as claimed — the owner's delete removes sensor and measurements and a
subsequent history query answers 403. -/
theorem delete_cascade_unconditional :
    ((handleDelete wDB 2 "HELADERA-01").2.sensors = wDB.sensors ∧
      wDB.measurements ≠ [] ∧
      (handleDelete wDB 2 "HELADERA-01").2.measurements = []) ∧
    ((handleDelete wDB 1 "HELADERA-01").2.sensors = [] ∧
      (handleDelete wDB 1 "HELADERA-01").2.measurements = [] ∧
      (handleHistory (handleDelete wDB 1 "HELADERA-01").2 1 "HELADERA-01" 100).status = 403) := by
  decide

/-! ## C7 -/

/-- C7: a historial command from a resolved user. If no owned sensor's
friendlyName matches the query, exactly one not-found reply echoing the
query is sent; if a sensor matches but has zero measurements, nothing is
sent; if it has at least one, exactly one image message is sent whose chart
series is the newest 10 measurements fetched descending then reversed, so
its timestamps run chronologically (strictly so whenever timestamps are
pairwise distinct). -/
theorem historial_command_cases (db : DB) (raw jid text busqueda : String) (user : User)
    (htext : text = jsTrim (jsToLower raw))
    (hbusq : busqueda = jsTrim (jsDrop text 9))
    (hu : findUserByWhatsapp db (jidNumber jid) = some user)
    (hstart : jsStartsWith text "historial" = true) :
    (findSensorByName db user busqueda = none →
        (handleWebhook db (some ⟨some raw, jid⟩)).sent
          = [OutMsg.textMsg (jidNumber jid) (notFoundText busqueda)]) ∧
    (∀ sensor, findSensorByName db user busqueda = some sensor →
      (measurementsFor db sensor.hardwareId = [] →
          (handleWebhook db (some ⟨some raw, jid⟩)).sent = []) ∧
      (measurementsFor db sensor.hardwareId ≠ [] →
          (handleWebhook db (some ⟨some raw, jid⟩)).sent
            = [OutMsg.imageMsg (jidNumber jid)
                ((chartDocs db sensor.hardwareId).map (fun m => timeLabel m.timestamp))
                ((chartDocs db sensor.hardwareId).map (fun m => m.temperatureC))
                ("📊 Historial: " ++ sensor.friendlyName)] ∧
          ((chartDocs db sensor.hardwareId).map (fun m => m.timestamp)).Sorted (· ≤ ·) ∧
          ((db.measurements.map (fun m => m.timestamp)).Pairwise (· ≠ ·) →
            ((chartDocs db sensor.hardwareId).map (fun m => m.timestamp)).Sorted (· < ·)))) := by
  subst htext
  subst hbusq
  have hne : ¬ jsTrim (jsToLower raw) = "estado" := by
    intro hEq
    rw [hEq] at hstart
    exact absurd hstart (by decide)
  have hred : handleWebhook db (some ⟨some raw, jid⟩)
      = handleCommand db (jidNumber jid) (jsTrim (jsToLower raw)) := rfl
  rw [hred, handleCommand_historial db (jidNumber jid) (jsTrim (jsToLower raw)) user hu
    hstart hne]
  constructor
  · intro hnone
    simp only [historialMsgs, hnone]
  · intro sensor hsome
    constructor
    · intro hempty
      have hdocs : (measurementsDesc db sensor.hardwareId).take 10 = [] :=
        (take_docs_eq_nil_iff db sensor.hardwareId).mpr hempty
      simp only [historialMsgs, hsome, hdocs]
      rfl
    · intro hne2
      have hdocs : ¬ (measurementsDesc db sensor.hardwareId).take 10 = [] :=
        fun hh => hne2 ((take_docs_eq_nil_iff db sensor.hardwareId).mp hh)
      have hlen : ((measurementsDesc db sensor.hardwareId).take 10).length > 0 :=
        List.length_pos.mpr hdocs
      refine ⟨?_, chartDocs_sorted_le db sensor.hardwareId,
        chartDocs_sorted_lt db sensor.hardwareId⟩
      simp only [historialMsgs, hsome, if_pos hlen]
      unfold chartDocs
      rw [List.map_reverse, List.map_reverse]

/-- Witness for C7 at a concrete input: alice asks `"Historial Free"`, the
pattern `"free"` matches `"Freezer Grande"`, one measurement exists. -/
theorem historial_command_cases_witness :
    ("historial free" : String) = jsTrim (jsToLower "Historial Free") ∧
    ("free" : String) = jsTrim (jsDrop "historial free" 9) ∧
    findUserByWhatsapp wDB (jidNumber "5491111@s.whatsapp.net") = some wAlice ∧
    jsStartsWith "historial free" "historial" = true ∧
    ((findSensorByName wDB wAlice "free" = none →
        (handleWebhook wDB (some ⟨some "Historial Free", "5491111@s.whatsapp.net"⟩)).sent
          = [OutMsg.textMsg (jidNumber "5491111@s.whatsapp.net") (notFoundText "free")]) ∧
      (∀ sensor, findSensorByName wDB wAlice "free" = some sensor →
        (measurementsFor wDB sensor.hardwareId = [] →
            (handleWebhook wDB
              (some ⟨some "Historial Free", "5491111@s.whatsapp.net"⟩)).sent = []) ∧
        (measurementsFor wDB sensor.hardwareId ≠ [] →
            (handleWebhook wDB
              (some ⟨some "Historial Free", "5491111@s.whatsapp.net"⟩)).sent
              = [OutMsg.imageMsg (jidNumber "5491111@s.whatsapp.net")
                  ((chartDocs wDB sensor.hardwareId).map (fun m => timeLabel m.timestamp))
                  ((chartDocs wDB sensor.hardwareId).map (fun m => m.temperatureC))
                  ("📊 Historial: " ++ sensor.friendlyName)] ∧
            ((chartDocs wDB sensor.hardwareId).map (fun m => m.timestamp)).Sorted (· ≤ ·) ∧
            ((wDB.measurements.map (fun m => m.timestamp)).Pairwise (· ≠ ·) →
              ((chartDocs wDB sensor.hardwareId).map (fun m => m.timestamp)).Sorted (· < ·))))) :=
  ⟨by decide, by decide, by decide, by decide,
    historial_command_cases wDB "Historial Free" "5491111@s.whatsapp.net" "historial free"
      "free" wAlice (by decide) (by decide) (by decide) (by decide)⟩

/-! ## C9 -/

lemma find?_upsertSensor (l : List Sensor) (b : ConfigBody) (uid : Nat) :
    ∃ t, (upsertSensor l b uid).find? (fun x => decide (x.hardwareId = b.hardwareId))
      = some ⟨b.hardwareId, b.friendlyName, b.alertThreshold, uid, true, t⟩ := by
  induction l with
  | nil =>
    refine ⟨none, ?_⟩
    unfold upsertSensor
    exact List.find?_cons_of_pos _ (by simp)
  | cons s rest ih =>
    by_cases h : s.hardwareId = b.hardwareId
    · refine ⟨s.lastAlertSent, ?_⟩
      unfold upsertSensor
      rw [if_pos h]
      exact List.find?_cons_of_pos _ (by simp)
    · obtain ⟨t, ht⟩ := ih
      refine ⟨t, ?_⟩
      unfold upsertSensor
      rw [if_neg h, List.find?_cons_of_neg _ (by simp [h])]
      exact ht

/-- C9: after an authenticated config upsert, the sensor stored under the
request's hardwareId is owned by the caller with `enabled = true` and the
body's fields — including when the previous document belonged to a
different user, whose ownership is overwritten. -/
theorem config_upsert_forces_owner (db : DB) (callerId : Nat) (body : ConfigBody) :
    ∃ s, findSensor (handleConfig db callerId body).2 body.hardwareId = some s ∧
      s.owner = callerId ∧ s.enabled = true ∧
      s.friendlyName = body.friendlyName ∧ s.alertThreshold = body.alertThreshold := by
  obtain ⟨t, ht⟩ := find?_upsertSensor db.sensors body callerId
  exact ⟨⟨body.hardwareId, body.friendlyName, body.alertThreshold, callerId, true, t⟩,
    ht, rfl, rfl, rfl, rfl⟩

/-! ## C10 -/

/-- C10: an estado command from a resolved user owning zero enabled sensors
still produces exactly one text reply, the bare report header with no
per-sensor lines — not a silent no-op. -/
theorem estado_empty_report (db : DB) (raw jid : String) (user : User)
    (hu : findUserByWhatsapp db (jidNumber jid) = some user)
    (ht : jsTrim (jsToLower raw) = "estado")
    (hs : sensorsOf db user = []) :
    (handleWebhook db (some ⟨some raw, jid⟩)).sent
      = [OutMsg.textMsg (jidNumber jid) reportHeader] := by
  have hred : handleWebhook db (some ⟨some raw, jid⟩)
      = handleCommand db (jidNumber jid) (jsTrim (jsToLower raw)) := rfl
  rw [hred, ht, handleCommand_estado db (jidNumber jid) user hu]
  unfold estadoReport
  rw [hs]
  rfl

/-- Witness for C10: bob (no sensors) sends `"Estado"` and receives exactly
the header. -/
theorem estado_empty_report_witness :
    findUserByWhatsapp wDB (jidNumber "5492222@s.whatsapp.net") = some wBob ∧
    jsTrim (jsToLower "Estado") = "estado" ∧
    sensorsOf wDB wBob = [] ∧
    (handleWebhook wDB (some ⟨some "Estado", "5492222@s.whatsapp.net"⟩)).sent
      = [OutMsg.textMsg (jidNumber "5492222@s.whatsapp.net") reportHeader] :=
  ⟨by decide, by decide, by decide,
    estado_empty_report wDB "Estado" "5492222@s.whatsapp.net" wBob
      (by decide) (by decide) (by decide)⟩

end Server
